import Mathlib

/-!
Verification of the coordination logic in `hkl/diffract.py` (class
`Diffractometer`): the energy/units/offset synchronizer, the constraint
snapshot stack, the kinematic adapter, move validation and construction
checks.  Python floats are modelled as rationals, Python exceptions as
an explicit error type carried by `Except`.
-/

namespace HklDiffract

/-- Errors raised by the modelled diffractometer operations.  Python raises
`NotImplementedError` or pint's unit errors for bad units, `KeyError` for an
unknown axis in `check_value`, `LimitError` (from the positioner framework)
for an out-of-bounds axis target, an error for a forward search with no
solution, and `ValueError` for construction problems. -/
inductive DiffractError where
  | unsupportedUnit (units : String)
  | keyError (axis : String)
  | limitError (axis : String)
  | noSolution (pseudo : List ℚ)
  | configProblem (msg : String)
deriving DecidableEq

/-- Python values that can be stored in the `energy_update_calc_flag` Signal:
the model covers ints, strings and booleans, the kinds named by the tuple in
`Diffractometer._calc_energy_update_permitted`. -/
inductive PyVal where
  | pyInt (n : Int)
  | pyStr (s : String)
  | pyBool (b : Bool)
deriving DecidableEq

/-- Python equality `==` on those values: `True == 1` and `False == 0` hold
across the bool/int kinds; strings compare only with strings. -/
def pyEq : PyVal → PyVal → Bool
  | .pyInt m, .pyInt n => m == n
  | .pyStr a, .pyStr b => a == b
  | .pyBool a, .pyBool b => a == b
  | .pyBool a, .pyInt n => (if a then (1 : Int) else 0) == n
  | .pyInt n, .pyBool a => n == (if a then (1 : Int) else 0)
  | _, _ => false

/-- Modelled from the spec: the third-party `pint` unit registry (outside this
repository) restricted to energy units.  `unitFactor u` is the factor that
converts a quantity expressed in `u` to keV; an unknown or non-energy unit has
no factor and makes the conversion raise. -/
def unitFactor : String → Option ℚ
  | "keV" => some 1
  | "eV" => some (1 / 1000)
  | "MeV" => some 1000
  | _ => none

/-- The slice of `Diffractometer` state that the energy synchronizer touches:
the three public Signals (`energy`, `energy_units`, `energy_offset`), the
update-enable flag Signal, the device `connected` flag, the solver's energy
`calc.energy` (always in keV), and a counter of `_update_position` calls. -/
structure DState where
  energy : ℚ
  energy_units : String
  energy_offset : ℚ
  energy_update_calc_flag : PyVal
  connected : Bool
  calc_energy : ℚ
  position_updates : Nat
deriving DecidableEq

/-- The tuple of acceptable flag values in
`Diffractometer._calc_energy_update_permitted`:
`(1, "Yes", "locked", "OK", True, "On")`. -/
def acceptable_values : List PyVal :=
  [.pyInt 1, .pyStr "Yes", .pyStr "locked", .pyStr "OK", .pyBool true, .pyStr "On"]

/-- Property `_calc_energy_update_permitted`: the flag Signal's value is a
member (under Python `==`, as Python `in` tests) of `acceptable_values`. -/
def calc_energy_update_permitted (s : DState) : Bool :=
  acceptable_values.any (fun v => pyEq s.energy_update_calc_flag v)

/-- Python truthiness fallback `value or self.energy.get()` used in
`_update_calc_energy`: `None` and `0` both fall back to the Signal value. -/
def orSignal (value : Option ℚ) (signalValue : ℚ) : ℚ :=
  match value with
  | none => signalValue
  | some v => if v = 0 then signalValue else v

/-- Method `Diffractometer._update_calc_energy`: when connected, take the
supplied value (or the energy Signal), add the offset (same units as the
energy Signal), convert to keV unless the units are already keV, write the
result to `calc.energy` and call `_update_position`. -/
def _update_calc_energy (value : Option ℚ) (s : DState) : Except DiffractError DState :=
  if s.connected = false then .ok s
  else
    let v0 := orSignal value s.energy
    let v1 := v0 + s.energy_offset
    if s.energy_units = "keV" then
      .ok { s with calc_energy := v1, position_updates := s.position_updates + 1 }
    else
      match unitFactor s.energy_units with
      | none => .error (.unsupportedUnit s.energy_units)
      | some f =>
        .ok { s with calc_energy := v1 * f, position_updates := s.position_updates + 1 }

/-- Method `Diffractometer._energy_changed`, the callback subscribed to the
`energy` Signal: skip (with a logged warning) when not connected, otherwise
update the solver energy only when the flag permits. -/
def _energy_changed (value : Option ℚ) (s : DState) : Except DiffractError DState :=
  if s.connected = false then .ok s
  else if calc_energy_update_permitted s then _update_calc_energy value s
  else .ok s

/-- A put to the `energy` Signal: the Signal stores the new value and then
runs the subscribed callback `_energy_changed` synchronously with it. -/
def energy_put (x : ℚ) (s : DState) : Except DiffractError DState :=
  _energy_changed (some x) { s with energy := x }

/-- Method `Diffractometer._energy_offset_changed`, the callback subscribed to
the `energy_offset` Signal: skip when not connected; otherwise re-express the
solver's current energy (keV) in the public units (raising on an unsupported
unit before any write), subtract the new offset and put the result into the
public `energy` Signal. -/
def _energy_offset_changed (value : ℚ) (s : DState) : Except DiffractError DState :=
  if s.connected = false then .ok s
  else
    match unitFactor s.energy_units with
    | none => .error (.unsupportedUnit s.energy_units)
    | some f => energy_put (s.calc_energy / f - value) s

/-- A put to the `energy_offset` Signal: store the value, then run the
subscribed callback. -/
def energy_offset_put (x : ℚ) (s : DState) : Except DiffractError DState :=
  _energy_offset_changed x { s with energy_offset := x }

/-- Method `Diffractometer._energy_units_changed`, the callback subscribed to
the `energy_units` Signal: skip when not connected; otherwise re-express the
solver's current energy (keV) in the new units (raising on an unsupported
unit before any write), subtract the current offset and put the result into
the public `energy` Signal. -/
def _energy_units_changed (value : String) (s : DState) : Except DiffractError DState :=
  if s.connected = false then .ok s
  else
    match unitFactor value with
    | none => .error (.unsupportedUnit value)
    | some f => energy_put (s.calc_energy / f - s.energy_offset) s

/-- A put to the `energy_units` Signal: store the value, then run the
subscribed callback. -/
def energy_units_put (u : String) (s : DState) : Except DiffractError DState :=
  _energy_units_changed u { s with energy_units := u }

/-- Decidable equality of modelled results, for checking concrete runs. -/
instance {α β : Type} [DecidableEq α] [DecidableEq β] : DecidableEq (Except α β) :=
  fun a b =>
  match a, b with
  | .ok x, .ok y =>
    if h : x = y then isTrue (h ▸ rfl)
    else isFalse (fun hh => h (by injection hh))
  | .error x, .error y =>
    if h : x = y then isTrue (h ▸ rfl)
    else isFalse (fun hh => h (by injection hh))
  | .ok _, .error _ => isFalse (fun hh => Except.noConfusion hh)
  | .error _, .ok _ => isFalse (fun hh => Except.noConfusion hh)

/-- The namedtuple `Constraint = ("low_limit", "high_limit", "value", "fit")`
from `hkl/diffract.py`. -/
structure Constraint where
  low_limit : ℚ
  high_limit : ℚ
  value : ℚ
  fit : Bool
deriving DecidableEq

/-- An axis-name to Constraint mapping, as the Python dicts passed to
`apply_constraints` and stored on `_constraints_stack` (insertion order). -/
abbrev ConstraintSet := List (String × Constraint)

/-- The slice of `Diffractometer` state that the constraint stack touches:
the real-axis names (`real_positioners._fields`), the solver's per-axis
limits/value/fit state (`calc[m]`, keyed by axis name), and
`_constraints_stack`. -/
structure CState where
  axes : List String
  calcAxis : String → Constraint
  constraints_stack : List ConstraintSet

/-- Method `Diffractometer._set_constraints`: write each entry's limits,
value and fit into the solver's state for that axis, in dict order; the
solver's axis lookup `calc[axis]` fails on a name that is not one of its
axes. -/
def _set_constraints : ConstraintSet → CState → Except DiffractError CState
  | [], s => .ok s
  | (axis, c) :: rest, s =>
    if axis ∈ s.axes then
      _set_constraints rest { s with calcAxis := Function.update s.calcAxis axis c }
    else .error (.keyError axis)

/-- The dict built inside `Diffractometer._push_current_constraints`: one
Constraint per real axis, read from the solver. -/
def current_constraints (s : CState) : ConstraintSet :=
  s.axes.map (fun m => (m, s.calcAxis m))

/-- Method `Diffractometer._push_current_constraints`: append the current
per-axis snapshot to `_constraints_stack` (Python `list.append`). -/
def _push_current_constraints (s : CState) : CState :=
  { s with constraints_stack := s.constraints_stack ++ [current_constraints s] }

/-- Method `Diffractometer.apply_constraints`: push the current snapshot,
then write the supplied constraints into the solver. -/
def apply_constraints (c : ConstraintSet) (s : CState) : Except DiffractError CState :=
  _set_constraints c (_push_current_constraints s)

/-- Method `Diffractometer.undo_last_constraints`: nothing when the stack is
empty; otherwise pop the most recent snapshot (Python `list.pop`) and write
it back into the solver. -/
def undo_last_constraints (s : CState) : Except DiffractError CState :=
  match s.constraints_stack.getLast? with
  | none => .ok s
  | some snap => _set_constraints snap { s with constraints_stack := s.constraints_stack.dropLast }

/-- Method `Diffractometer.reset_constraints`: nothing when the stack is
empty; otherwise write the oldest snapshot (`_constraints_stack[0]`) into
the solver and clear the whole stack. -/
def reset_constraints (s : CState) : Except DiffractError CState :=
  match s.constraints_stack.head? with
  | none => .ok s
  | some snap => _set_constraints snap { s with constraints_stack := [] }

/-- A sequence of `apply_constraints` calls, stopping at the first error. -/
def apply_constraints_seq : List ConstraintSet → CState → Except DiffractError CState
  | [], s => .ok s
  | c :: cs, s =>
    match apply_constraints c s with
    | .error e => .error e
    | .ok s1 => apply_constraints_seq cs s1

/-- The pure effect of `_set_constraints` on the solver's per-axis state:
fold the dict entries over the state with pointwise update. -/
def setCalc (c : ConstraintSet) (f : String → Constraint) : String → Constraint :=
  c.foldl (fun g p => Function.update g p.1 p.2) f

/-- The slice of `Diffractometer` state that `forward` touches: the current
live real position (`self.position`) and the solver's bounded forward search.
`search start target max_iters` is the raw solution list computed by the
solver for those arguments; positions and solutions are tuples of rationals. -/
structure KinAdapter where
  position : List ℚ
  search : List ℚ → List ℚ → Nat → List (List ℚ)

/-- Modelled from the spec: `calc.forward_iter` (defined in `hkl/calc.py`,
which is not under `src/`) runs the bounded search and signals a
no-solution error carrying the attempted target when the search finds
nothing. -/
def forward_iter (k : KinAdapter) (start target : List ℚ) (max_iters : Nat) :
    Except DiffractError (List (List ℚ)) :=
  match k.search start target max_iters with
  | [] => .error (.noSolution target)
  | sols => .ok sols

/-- Method `Diffractometer.forward`: run
`calc.forward_iter(start=self.position, end=pseudo, max_iters=100)` and pass
the target with the full solution list to the per-instance decision
function, whose result is the real position. -/
def forward (k : KinAdapter) (decision_fcn : List ℚ → List (List ℚ) → List ℚ)
    (pseudo : List ℚ) : Except DiffractError (List ℚ) :=
  match forward_iter k k.position pseudo 100 with
  | .error e => .error e
  | .ok solutions => .ok (decision_fcn pseudo solutions)

/-- Modelled from the spec: `default_decision_function` (in `hkl/calc.py`,
not under `src/`) arbitrarily selects the first solution in solver-returned
order; `Diffractometer.__init__` installs it when no decision function is
supplied. -/
def default_decision_function (position : List ℚ) (solutions : List (List ℚ)) : List ℚ :=
  solutions.headD position

/-- One positioner (real or pseudo) of the device: its attribute name, its
limits and its current position. -/
structure Positioner where
  name : String
  low_limit : ℚ
  high_limit : ℚ
  position : ℚ
deriving DecidableEq

/-- The slice of `Diffractometer` state that `check_value` touches: the real
positioners, the pseudo positioners (in `pseudo_positioners` order) and the
names of the device's other attributes (signals such as `energy`). -/
structure DevModel where
  dev_name : String
  real_positioners : List Positioner
  pseudo_positioners : List Positioner
  other_attrs : List String
deriving DecidableEq

/-- Python `hasattr(self, axis)` on the device model: the name is a real
positioner, a pseudo positioner or one of the other attributes. -/
def hasattr (d : DevModel) (a : String) : Bool :=
  d.real_positioners.any (fun p => p.name == a) ||
  d.pseudo_positioners.any (fun p => p.name == a) ||
  d.other_attrs.any (fun n => n == a)

/-- Modelled from the spec: the per-axis bounds validation that the
positioner framework's `p.check_value(target)` performs for a real
positioner; names that are not a real positioner are not individually
validated (the code only calls it when `p in self.real_positioners`). -/
def realOk (d : DevModel) (a : String) (t : ℚ) : Bool :=
  match d.real_positioners.find? (fun p => p.name == a) with
  | some p => decide (p.low_limit ≤ t ∧ t ≤ p.high_limit)
  | none => true

/-- The per-key loop of `Diffractometer.check_value` on a dict argument:
a key with no attribute raises `KeyError` naming the axis; a key naming a
real positioner is checked against its own limits; other keys pass. -/
def check_axes (d : DevModel) : List (String × ℚ) → Except DiffractError Unit
  | [] => .ok ()
  | (axis, target) :: rest =>
    if hasattr d axis then
      if realOk d axis target then check_axes d rest
      else .error (.limitError axis)
    else .error (.keyError axis)

/-- Python `pos.get(key, default)` on the dict, represented as an
association list with distinct keys. -/
def dictGet (pos : List (String × ℚ)) (k : String) (dflt : ℚ) : ℚ :=
  match pos.find? (fun q => q.1 == k) with
  | some q => q.2
  | none => dflt

/-- The composite built by `check_value`:
`[pos.get(p.attr_name, p.position) for p in self.pseudo_positioners]`. -/
def fillPseudo (d : DevModel) (pos : List (String × ℚ)) : List ℚ :=
  d.pseudo_positioners.map (fun p => dictGet pos p.name p.position)

/-- Method `Diffractometer.check_value` on a dict argument: validate each
key, then build the composite pseudo position filled from current values.
The composite is returned here: it is what the code hands to the
framework's whole-target validation `super().check_value(pos)` (the
framework is outside this repository). -/
def check_value (d : DevModel) (pos : List (String × ℚ)) : Except DiffractError (List ℚ) :=
  match check_axes d pos with
  | .error e => .error e
  | .ok _ => .ok (fillPseudo d pos)

/-- The two facts about a calculation instance that
`Diffractometer.__init__` checks: whether it is an instance of the class's
`calc_class`, and whether its engine is locked. -/
structure CalcInst where
  engine_locked : Bool
  is_instance_of_calc_class : Bool
deriving DecidableEq

/-- The construction checks of `Diffractometer.__init__`: a supplied
`calc_inst` must be an instance of `calc_class` (else `ValueError`); with no
`calc_inst` the class builds `calc_class(lock_engine=True, ...)`, whose
resulting locked state is the parameter `default_calc_locked`; afterwards an
unlocked engine raises `ValueError`. -/
def diffractometer_init (calc_inst : Option CalcInst) (default_calc_locked : Bool) :
    Except DiffractError CalcInst :=
  match calc_inst with
  | some c =>
    if c.is_instance_of_calc_class = false then
      .error (.configProblem "Calculation instance must be derived from the class calc_class")
    else if c.engine_locked = false then
      .error (.configProblem "Calculation engine must be locked")
    else .ok c
  | none =>
    let c : CalcInst := { engine_locked := default_calc_locked, is_instance_of_calc_class := true }
    if c.engine_locked = false then
      .error (.configProblem "Calculation engine must be locked")
    else .ok c

theorem set_constraints_ok (c : ConstraintSet) (s : CState)
    (hc : ∀ p ∈ c, p.1 ∈ s.axes) :
    _set_constraints c s = .ok { s with calcAxis := setCalc c s.calcAxis } := by
  induction c generalizing s with
  | nil => rfl
  | cons p rest ih =>
    obtain ⟨a, c0⟩ := p
    have ha : a ∈ s.axes := hc (a, c0) (by simp)
    have hrest : ∀ q ∈ rest, q.1 ∈ ({ s with calcAxis := Function.update s.calcAxis a c0 } : CState).axes :=
      fun q hq => hc q (by simp [hq])
    simp only [_set_constraints, ha, if_pos]
    rw [ih _ hrest]
    rfl

theorem setCalc_no_key (c : ConstraintSet) (g : String → Constraint) (m : String)
    (h : ∀ p ∈ c, p.1 ≠ m) : setCalc c g m = g m := by
  induction c generalizing g with
  | nil => rfl
  | cons p rest ih =>
    obtain ⟨a, c0⟩ := p
    have ha : a ≠ m := h (a, c0) (by simp)
    have : setCalc ((a, c0) :: rest) g = setCalc rest (Function.update g a c0) := rfl
    rw [this, ih _ (fun q hq => h q (by simp [hq])), Function.update_noteq (Ne.symm ha)]

theorem setCalc_snapshot (axes : List String) (f g : String → Constraint) (m : String)
    (hm : m ∈ axes) : setCalc (axes.map fun a => (a, f a)) g m = f m := by
  induction axes generalizing g with
  | nil => cases hm
  | cons a rest ih =>
    have hstep : setCalc ((a :: rest).map fun x => (x, f x)) g =
        setCalc (rest.map fun x => (x, f x)) (Function.update g a (f a)) := rfl
    rw [hstep]
    by_cases hr : m ∈ rest
    · exact ih _ hr
    · have hma : m = a := by
        rcases List.mem_cons.mp hm with h | h
        · exact h
        · exact absurd h hr
      have hnk : ∀ p ∈ rest.map fun x => (x, f x), p.1 ≠ m := by
        intro p hp
        obtain ⟨x, hx, rfl⟩ := List.mem_map.mp hp
        intro hxm
        exact hr (hxm ▸ hx)
      rw [setCalc_no_key _ _ _ hnk, hma, Function.update_same]

theorem apply_constraints_ok (c : ConstraintSet) (s : CState)
    (hc : ∀ p ∈ c, p.1 ∈ s.axes) :
    apply_constraints c s = .ok
      { axes := s.axes, calcAxis := setCalc c s.calcAxis,
        constraints_stack := s.constraints_stack ++ [current_constraints s] } := by
  unfold apply_constraints _push_current_constraints
  exact set_constraints_ok c _ (fun p hp => hc p hp)

/-- C2: for every ConstraintSet whose keys name real axes,
`apply_constraints` then `undo_last_constraints` restores the solver's
per-axis constraint state (low limit, high limit, value, fit of every real
axis) and the stack exactly to the pre-apply state; and
`undo_last_constraints` on an empty stack is a no-op. -/
theorem apply_undo_roundtrip (s : CState) (c : ConstraintSet)
    (hc : ∀ p ∈ c, p.1 ∈ s.axes) :
    (∃ s1 s2, apply_constraints c s = .ok s1 ∧ undo_last_constraints s1 = .ok s2 ∧
      s2.axes = s.axes ∧ s2.constraints_stack = s.constraints_stack ∧
      ∀ m ∈ s.axes, s2.calcAxis m = s.calcAxis m)
    ∧ (s.constraints_stack = [] → undo_last_constraints s = .ok s) := by
  constructor
  · have hU : undo_last_constraints
        { axes := s.axes, calcAxis := setCalc c s.calcAxis,
          constraints_stack := s.constraints_stack ++ [current_constraints s] } =
        .ok { axes := s.axes,
              calcAxis := setCalc (current_constraints s) (setCalc c s.calcAxis),
              constraints_stack := s.constraints_stack } := by
      unfold undo_last_constraints
      simp only [List.getLast?_concat, List.dropLast_concat]
      exact set_constraints_ok _ _ (by
        intro p hp
        obtain ⟨m, hm, rfl⟩ := List.mem_map.mp hp
        exact hm)
    refine ⟨_, _, apply_constraints_ok c s hc, hU, rfl, rfl, ?_⟩
    intro m hm
    exact setCalc_snapshot s.axes s.calcAxis (setCalc c s.calcAxis) m hm
  · intro h
    unfold undo_last_constraints
    rw [h]
    rfl

theorem apply_seq_ok (cs : List ConstraintSet) (s : CState)
    (hcs : ∀ c ∈ cs, ∀ p ∈ c, p.1 ∈ s.axes) :
    ∃ s1, apply_constraints_seq cs s = .ok s1 ∧ s1.axes = s.axes ∧
      ∃ tail, s1.constraints_stack = s.constraints_stack ++ tail ∧
        (cs ≠ [] → tail.head? = some (current_constraints s)) := by
  induction cs generalizing s with
  | nil => exact ⟨s, rfl, rfl, [], by simp, by simp⟩
  | cons c rest ih =>
    have hA := apply_constraints_ok c s (hcs c (by simp))
    have hrest : ∀ c' ∈ rest, ∀ p ∈ c', p.1 ∈
        ({ axes := s.axes, calcAxis := setCalc c s.calcAxis,
           constraints_stack := s.constraints_stack ++ [current_constraints s] } : CState).axes :=
      fun c' hc' p hp => hcs c' (by simp [hc']) p hp
    obtain ⟨s1, happ, haxes, tail', hstack, _⟩ := ih _ hrest
    refine ⟨s1, ?_, haxes, [current_constraints s] ++ tail', ?_, fun _ => rfl⟩
    · unfold apply_constraints_seq
      rw [hA]
      exact happ
    · rw [hstack]
      simp

/-- C3: starting from an empty stack, after any nonempty sequence of
`apply_constraints` calls (with axis-named keys), `reset_constraints`
writes the very first pre-apply snapshot (stack index 0) back into the
solver — restoring every real axis to its original constraint state — and
leaves the stack empty; and `reset_constraints` on an empty stack is a
no-op. -/
theorem reset_restores_baseline (s : CState) (cs : List ConstraintSet)
    (hempty : s.constraints_stack = []) (hne : cs ≠ [])
    (hcs : ∀ c ∈ cs, ∀ p ∈ c, p.1 ∈ s.axes) :
    (∃ s1 s2, apply_constraints_seq cs s = .ok s1 ∧ reset_constraints s1 = .ok s2 ∧
      s2.constraints_stack = [] ∧ s2.axes = s.axes ∧
      ∀ m ∈ s.axes, s2.calcAxis m = s.calcAxis m)
    ∧ (∀ t : CState, t.constraints_stack = [] → reset_constraints t = .ok t) := by
  constructor
  · obtain ⟨s1, happ, haxes, tail, hstack, hhead⟩ := apply_seq_ok cs s hcs
    rw [hempty, List.nil_append] at hstack
    have hhd : s1.constraints_stack.head? = some (current_constraints s) := by
      rw [hstack]
      exact hhead hne
    have hR : reset_constraints s1 = .ok
        { axes := s1.axes,
          calcAxis := setCalc (current_constraints s) s1.calcAxis,
          constraints_stack := [] } := by
      unfold reset_constraints
      rw [hhd]
      exact set_constraints_ok _ _ (by
        intro p hp
        obtain ⟨m, hm, rfl⟩ := List.mem_map.mp hp
        simpa [haxes] using hm)
    refine ⟨s1, _, happ, hR, rfl, haxes, ?_⟩
    intro m hm
    exact setCalc_snapshot s.axes s.calcAxis s1.calcAxis m hm
  · intro t ht
    unfold reset_constraints
    rw [ht]
    rfl

/-- C2 witness: a concrete two-axis solver state and a tth constraint. -/
theorem apply_undo_roundtrip_witness :
    ∃ s1 s2,
      apply_constraints [("tth", ⟨-5, 180, 0, true⟩)]
        ⟨["omega", "tth"], fun _ => ⟨0, 0, 0, true⟩, []⟩ = .ok s1 ∧
      undo_last_constraints s1 = .ok s2 ∧
      s2.calcAxis "tth" = ⟨0, 0, 0, true⟩ := by
  obtain ⟨⟨s1, s2, h1, h2, _, _, hm⟩, _⟩ :=
    apply_undo_roundtrip ⟨["omega", "tth"], fun _ => ⟨0, 0, 0, true⟩, []⟩
      [("tth", ⟨-5, 180, 0, true⟩)] (by decide)
  exact ⟨s1, s2, h1, h2, hm "tth" (by decide)⟩

/-- C3 witness: two applies from an empty stack, then reset. -/
theorem reset_restores_baseline_witness :
    ∃ s1 s2,
      apply_constraints_seq
        [[("tth", ⟨-5, 180, 0, true⟩)], [("omega", ⟨-10, 170, 1, false⟩)]]
        ⟨["omega", "tth"], fun _ => ⟨0, 0, 0, true⟩, []⟩ = .ok s1 ∧
      reset_constraints s1 = .ok s2 ∧ s2.constraints_stack = [] ∧
      s2.calcAxis "omega" = ⟨0, 0, 0, true⟩ := by
  obtain ⟨⟨s1, s2, h1, h2, hstk, _, hm⟩, _⟩ :=
    reset_restores_baseline ⟨["omega", "tth"], fun _ => ⟨0, 0, 0, true⟩, []⟩
      [[("tth", ⟨-5, 180, 0, true⟩)], [("omega", ⟨-10, 170, 1, false⟩)]]
      rfl (by decide) (by decide)
  exact ⟨s1, s2, h1, h2, hstk, hm "omega" (by decide)⟩

theorem orSignal_some_self (x : ℚ) : orSignal (some x) x = x := by
  by_cases h : x = 0 <;> simp [orSignal, h]

theorem energy_changed_permitted (s : DState) (v : Option ℚ)
    (hcon : s.connected = true) (hperm : calc_energy_update_permitted s = true) :
    _energy_changed v s = _update_calc_energy v s := by
  unfold _energy_changed
  rw [hcon, hperm]
  simp

theorem update_calc_energy_ok (s : DState) (v : Option ℚ) (f : ℚ)
    (hcon : s.connected = true) (hu : unitFactor s.energy_units = some f) :
    _update_calc_energy v s = .ok { s with
      calc_energy := (orSignal v s.energy + s.energy_offset) * f
      position_updates := s.position_updates + 1 } := by
  unfold _update_calc_energy
  rw [hcon]
  by_cases hkev : s.energy_units = "keV"
  · have hf : f = 1 := by
      rw [hkev] at hu
      simpa [unitFactor] using hu.symm
    simp [hkev, hf]
  · simp [hkev, hu]

theorem update_calc_energy_badunit (s : DState) (v : Option ℚ)
    (hcon : s.connected = true) (hu : unitFactor s.energy_units = none) :
    _update_calc_energy v s = .error (.unsupportedUnit s.energy_units) := by
  have hne : s.energy_units ≠ "keV" := by
    intro h
    rw [h] at hu
    simp [unitFactor] at hu
  unfold _update_calc_energy
  rw [hcon]
  simp [hne, hu]

theorem offset_changed_badunit (s : DState) (x : ℚ)
    (hcon : s.connected = true) (hu : unitFactor s.energy_units = none) :
    _energy_offset_changed x s = .error (.unsupportedUnit s.energy_units) := by
  unfold _energy_offset_changed
  rw [hcon]
  simp [hu]

theorem units_changed_badunit (s : DState) (u : String)
    (hcon : s.connected = true) (hu : unitFactor u = none) :
    _energy_units_changed u s = .error (.unsupportedUnit u) := by
  unfold _energy_units_changed
  rw [hcon]
  simp [hu]

/-- C1: the spec formula `solver.energy = convert_to_keV(energy_value,
energy_units) + energy_offset` fails on the code: with units eV and offset
100, putting 8000 into the energy signal (connected, update enabled) makes
the solver energy `convert_to_keV(8000 + 100, eV) = 8.1` keV, while the
formula demands `convert_to_keV(8000, eV) + 100 = 108`. -/
theorem energy_update_spec_formula_fails :
    energy_put 8000 ⟨0, "eV", 100, .pyBool true, true, 0, 0⟩ =
      .ok ⟨8000, "eV", 100, .pyBool true, true, 81 / 10, 1⟩ ∧
    unitFactor "eV" = some (1 / 1000) ∧
    ¬ ((81 : ℚ) / 10 = 8000 * (1 / 1000) + 100) := by
  refine ⟨?_, by simp [unitFactor], by norm_num⟩
  norm_num [energy_put, _energy_changed, _update_calc_energy, calc_energy_update_permitted,
    acceptable_values, pyEq, orSignal, unitFactor]
  decide

/-- C1 (amended): after every settled energy update via the energy signal
(update enabled, device connected, supported units), the solver's energy in
keV equals `convert_to_keV(new_value + energy_offset, energy_units)` — the
offset is added in the public field's units before conversion — and the
handler writes it into the solver and triggers a position recomputation. -/
theorem energy_update_writes_converted_sum (s : DState) (x f : ℚ)
    (hcon : s.connected = true)
    (hperm : calc_energy_update_permitted s = true)
    (hu : unitFactor s.energy_units = some f) :
    energy_put x s = .ok { s with
      energy := x
      calc_energy := (x + s.energy_offset) * f
      position_updates := s.position_updates + 1 } := by
  have h1 : energy_put x s = _update_calc_energy (some x) { s with energy := x } :=
    energy_changed_permitted { s with energy := x } (some x) hcon hperm
  have h2 : _update_calc_energy (some x) { s with energy := x } = .ok { s with
      energy := x
      calc_energy := (orSignal (some x) x + s.energy_offset) * f
      position_updates := s.position_updates + 1 } :=
    update_calc_energy_ok { s with energy := x } (some x) f hcon hu
  rw [h1, h2, orSignal_some_self]

/-- C1 witness: a concrete settled update at units eV, offset 3. -/
theorem energy_update_writes_converted_sum_witness :
    energy_put 5 ⟨2, "eV", 3, .pyStr "Yes", true, 0, 0⟩ =
      .ok ⟨5, "eV", 3, .pyStr "Yes", true, (5 + 3) * (1 / 1000), 0 + 1⟩ :=
  energy_update_writes_converted_sum ⟨2, "eV", 3, .pyStr "Yes", true, 0, 0⟩ 5 (1 / 1000)
    rfl (by decide) (by simp [unitFactor])

/-- C4: the spec's concrete scenario fails at its last step: starting from
energy 8.0 keV, offset 0 (solver 8.0 keV), setting the offset to 0.1 gives
field 7.9 and solver 8.0 as claimed, but then setting units to eV gives
field 7999.9 — not the claimed 7900.0 — because the code subtracts the
offset as a raw number in the new units. -/
theorem energy_scenario_spec_value_fails :
    energy_offset_put (1 / 10) ⟨8, "keV", 0, .pyBool true, true, 8, 0⟩ =
      .ok ⟨79 / 10, "keV", 1 / 10, .pyBool true, true, 8, 1⟩ ∧
    energy_units_put "eV" ⟨79 / 10, "keV", 1 / 10, .pyBool true, true, 8, 1⟩ =
      .ok ⟨79999 / 10, "eV", 1 / 10, .pyBool true, true, 8, 2⟩ ∧
    ¬ ((79999 : ℚ) / 10 = 7900) := by
  refine ⟨?_, ?_, by norm_num⟩
  · norm_num [energy_offset_put, _energy_offset_changed, energy_put, _energy_changed,
      _update_calc_energy, calc_energy_update_permitted, acceptable_values, pyEq,
      orSignal, unitFactor]
  · norm_num [energy_units_put, _energy_units_changed, energy_put, _energy_changed,
      _update_calc_energy, calc_energy_update_permitted, acceptable_values, pyEq,
      orSignal, unitFactor]
    decide

/-- C4 (amended): starting from public energy 8.0, units keV, offset 0
(solver 8.0 keV), setting the offset to 0.1 makes the public field 7.9
while the solver stays at 8.0 keV; then setting units to eV makes the
public field 7999.9 (the solver's 8.0 keV re-expressed as 8000.0 eV minus
the numeric offset 0.1) while the solver stays at 8.0 keV. -/
theorem energy_scenario_exact :
    ∃ s1 s2,
      energy_offset_put (1 / 10) ⟨8, "keV", 0, .pyBool true, true, 8, 0⟩ = .ok s1 ∧
      s1.energy = 79 / 10 ∧ s1.calc_energy = 8 ∧
      energy_units_put "eV" s1 = .ok s2 ∧
      s2.energy = 79999 / 10 ∧ s2.calc_energy = 8 := by
  refine ⟨⟨79 / 10, "keV", 1 / 10, .pyBool true, true, 8, 1⟩,
    ⟨79999 / 10, "eV", 1 / 10, .pyBool true, true, 8, 2⟩, ?_, rfl, rfl, ?_, rfl, rfl⟩
  · norm_num [energy_offset_put, _energy_offset_changed, energy_put, _energy_changed,
      _update_calc_energy, calc_energy_update_permitted, acceptable_values, pyEq,
      orSignal, unitFactor]
  · norm_num [energy_units_put, _energy_units_changed, energy_put, _energy_changed,
      _update_calc_energy, calc_energy_update_permitted, acceptable_values, pyEq,
      orSignal, unitFactor]
    decide

/-- C7: with the device connected, every callback that must convert with an
unsupported unit string fails with the unsupported-unit error naming that
string, before any write to the public energy field or the solver energy:
the units callback on an unknown new unit, the offset callback when the
configured units are unknown, and the energy callback (update permitted)
when the configured units are unknown. -/
theorem unsupported_unit_errors (s : DState) (u : String) (x : ℚ)
    (hcon : s.connected = true) (hu : unitFactor u = none) :
    energy_units_put u s = .error (.unsupportedUnit u)
    ∧ (s.energy_units = u → energy_offset_put x s = .error (.unsupportedUnit u))
    ∧ (s.energy_units = u → calc_energy_update_permitted s = true →
        energy_put x s = .error (.unsupportedUnit u)) := by
  refine ⟨?_, ?_, ?_⟩
  · exact units_changed_badunit { s with energy_units := u } u hcon hu
  · intro hunits
    have h : energy_offset_put x s = .error (.unsupportedUnit s.energy_units) :=
      offset_changed_badunit { s with energy_offset := x } x hcon (by
        show unitFactor s.energy_units = none
        rw [hunits]
        exact hu)
    rw [h, hunits]
  · intro hunits hperm
    have h1 : energy_put x s = _update_calc_energy (some x) { s with energy := x } :=
      energy_changed_permitted { s with energy := x } (some x) hcon hperm
    have h2 : _update_calc_energy (some x) { s with energy := x } =
        .error (.unsupportedUnit s.energy_units) :=
      update_calc_energy_badunit { s with energy := x } (some x) hcon (by
        show unitFactor s.energy_units = none
        rw [hunits]
        exact hu)
    rw [h1, h2, hunits]

/-- C7 witness: a concrete unknown unit string on a connected device. -/
theorem unsupported_unit_errors_witness :
    energy_units_put "furlong" ⟨8, "furlong", 0, .pyStr "OK", true, 8, 0⟩ =
      .error (.unsupportedUnit "furlong") ∧
    energy_offset_put 1 ⟨8, "furlong", 0, .pyStr "OK", true, 8, 0⟩ =
      .error (.unsupportedUnit "furlong") ∧
    energy_put 2 ⟨8, "furlong", 0, .pyStr "OK", true, 8, 0⟩ =
      .error (.unsupportedUnit "furlong") := by
  have h := unsupported_unit_errors ⟨8, "furlong", 0, .pyStr "OK", true, 8, 0⟩
    "furlong" 1 rfl rfl
  have h2 := unsupported_unit_errors ⟨8, "furlong", 0, .pyStr "OK", true, 8, 0⟩
    "furlong" 2 rfl rfl
  exact ⟨h.1, h.2.1 rfl, h2.2.2 rfl (by decide)⟩

/-- C8: when the device reports not connected, each of the three
energy-related callbacks short-circuits identically: no error is raised and
the state — in particular the public energy field and the solver energy —
is returned unchanged. -/
theorem not_connected_callbacks_noop (s : DState) (v : Option ℚ) (x : ℚ) (u : String)
    (hcon : s.connected = false) :
    _energy_changed v s = .ok s
    ∧ _energy_offset_changed x s = .ok s
    ∧ _energy_units_changed u s = .ok s := by
  refine ⟨?_, ?_, ?_⟩ <;>
    simp [_energy_changed, _energy_offset_changed, _energy_units_changed, hcon]

/-- C8 witness: a concrete disconnected state. -/
theorem not_connected_callbacks_noop_witness :
    _energy_changed (some 9) ⟨8, "keV", 0, .pyBool true, false, 8, 0⟩ =
      .ok ⟨8, "keV", 0, .pyBool true, false, 8, 0⟩ ∧
    _energy_offset_changed 1 ⟨8, "keV", 0, .pyBool true, false, 8, 0⟩ =
      .ok ⟨8, "keV", 0, .pyBool true, false, 8, 0⟩ ∧
    _energy_units_changed "eV" ⟨8, "keV", 0, .pyBool true, false, 8, 0⟩ =
      .ok ⟨8, "keV", 0, .pyBool true, false, 8, 0⟩ :=
  not_connected_callbacks_noop ⟨8, "keV", 0, .pyBool true, false, 8, 0⟩ (some 9) 1 "eV" rfl

theorem permitted_iff_mem (x : PyVal) :
    (acceptable_values.any (fun v => pyEq x v) = true) ↔ x ∈ acceptable_values := by
  cases x with
  | pyInt n => simp [acceptable_values, pyEq]
  | pyStr a => simp [acceptable_values, pyEq]
  | pyBool b => cases b <;> simp [acceptable_values, pyEq]

/-- C10: an energy-signal change propagates to the solver exactly when the
update flag's value is one of `(1, "Yes", "locked", "OK", True, "On")`; for
every other int, string or bool value (such as "yes", "on" or 2) the
`_energy_changed` callback silently returns the state unchanged without
touching the solver energy. -/
theorem energy_update_flag_gate (s : DState) (v : Option ℚ)
    (hcon : s.connected = true) :
    (calc_energy_update_permitted s = true ↔ s.energy_update_calc_flag ∈ acceptable_values)
    ∧ (s.energy_update_calc_flag ∈ acceptable_values →
        _energy_changed v s = _update_calc_energy v s)
    ∧ (s.energy_update_calc_flag ∉ acceptable_values → _energy_changed v s = .ok s) := by
  have hiff := permitted_iff_mem s.energy_update_calc_flag
  refine ⟨hiff, ?_, ?_⟩
  · intro hmem
    exact energy_changed_permitted s v hcon (hiff.mpr hmem)
  · intro hnm
    have hp : calc_energy_update_permitted s = false := by
      cases h : calc_energy_update_permitted s
      · rfl
      · exact absurd (hiff.mp h) hnm
    unfold _energy_changed
    rw [hcon, hp]
    simp

/-- C10 witness: the truthy strings "yes" and "on" and the int 2 do not
propagate, while the flag value 1 does. -/
theorem energy_update_flag_gate_witness :
    _energy_changed (some 9) ⟨8, "keV", 0, .pyStr "yes", true, 8, 0⟩ =
      .ok ⟨8, "keV", 0, .pyStr "yes", true, 8, 0⟩ ∧
    _energy_changed (some 9) ⟨8, "keV", 0, .pyStr "on", true, 8, 0⟩ =
      .ok ⟨8, "keV", 0, .pyStr "on", true, 8, 0⟩ ∧
    _energy_changed (some 9) ⟨8, "keV", 0, .pyInt 2, true, 8, 0⟩ =
      .ok ⟨8, "keV", 0, .pyInt 2, true, 8, 0⟩ ∧
    _energy_changed (some 9) ⟨8, "keV", 0, .pyInt 1, true, 8, 0⟩ =
      _update_calc_energy (some 9) ⟨8, "keV", 0, .pyInt 1, true, 8, 0⟩ := by
  refine ⟨?_, ?_, ?_, ?_⟩
  · exact (energy_update_flag_gate ⟨8, "keV", 0, .pyStr "yes", true, 8, 0⟩ (some 9) rfl).2.2
      (by decide)
  · exact (energy_update_flag_gate ⟨8, "keV", 0, .pyStr "on", true, 8, 0⟩ (some 9) rfl).2.2
      (by decide)
  · exact (energy_update_flag_gate ⟨8, "keV", 0, .pyInt 2, true, 8, 0⟩ (some 9) rfl).2.2
      (by decide)
  · exact (energy_update_flag_gate ⟨8, "keV", 0, .pyInt 1, true, 8, 0⟩ (some 9) rfl).2.1
      (by decide)

theorem check_axes_all_pass (d : DevModel) (pos : List (String × ℚ))
    (h1 : ∀ p ∈ pos, hasattr d p.1 = true)
    (h2 : ∀ p ∈ pos, realOk d p.1 p.2 = true) :
    check_axes d pos = .ok () := by
  induction pos with
  | nil => rfl
  | cons p rest ih =>
    obtain ⟨a, t⟩ := p
    have ha := h1 (a, t) (by simp)
    have hr := h2 (a, t) (by simp)
    simp only [check_axes, ha, hr, if_true]
    exact ih (fun q hq => h1 q (by simp [hq])) (fun q hq => h2 q (by simp [hq]))

theorem check_axes_key_fail (d : DevModel) (pos : List (String × ℚ))
    (h2 : ∀ p ∈ pos, realOk d p.1 p.2 = true)
    (h : ∃ p ∈ pos, hasattr d p.1 = false) :
    ∃ a, hasattr d a = false ∧ (∃ t, (a, t) ∈ pos) ∧
      check_axes d pos = .error (.keyError a) := by
  induction pos with
  | nil => simp at h
  | cons p rest ih =>
    obtain ⟨a, t⟩ := p
    by_cases ha : hasattr d a = true
    · have hr := h2 (a, t) (by simp)
      have h' : ∃ p ∈ rest, hasattr d p.1 = false := by
        obtain ⟨q, hq, hqf⟩ := h
        rcases List.mem_cons.mp hq with hqe | hqr
        · rw [hqe] at hqf
          exact absurd ha (by simp [hqf])
        · exact ⟨q, hqr, hqf⟩
      obtain ⟨a0, hf, ⟨t0, hmem⟩, heq⟩ := ih (fun q hq => h2 q (by simp [hq])) h'
      exact ⟨a0, hf, ⟨t0, by simp [hmem]⟩, by simp [check_axes, ha, hr, heq]⟩
    · have ha' : hasattr d a = false := by simpa using ha
      exact ⟨a, ha', ⟨t, by simp⟩, by simp [check_axes, ha']⟩

theorem check_axes_limit_fail (d : DevModel) (pos : List (String × ℚ))
    (h1 : ∀ p ∈ pos, hasattr d p.1 = true)
    (h : ∃ p ∈ pos, realOk d p.1 p.2 = false) :
    ∃ a t, (a, t) ∈ pos ∧ realOk d a t = false ∧
      check_axes d pos = .error (.limitError a) := by
  induction pos with
  | nil => simp at h
  | cons p rest ih =>
    obtain ⟨a, t⟩ := p
    have ha := h1 (a, t) (by simp)
    by_cases hr : realOk d a t = true
    · have h' : ∃ p ∈ rest, realOk d p.1 p.2 = false := by
        obtain ⟨q, hq, hqf⟩ := h
        rcases List.mem_cons.mp hq with hqe | hqr
        · rw [hqe] at hqf
          exact absurd hr (by simp [hqf])
        · exact ⟨q, hqr, hqf⟩
      obtain ⟨a0, t0, hmem, hfail, heq⟩ := ih (fun q hq => h1 q (by simp [hq])) h'
      exact ⟨a0, t0, by simp [hmem], hfail, by simp [check_axes, ha, hr, heq]⟩
    · have hr' : realOk d a t = false := by simpa using hr
      exact ⟨a, t, by simp, hr', by simp [check_axes, ha, hr']⟩

/-- C5: the claim that every key of a partial mapping must resolve to a real
positioner fails on the code: a key naming a pseudo axis (here "h") is an
attribute of the device but not a real positioner, yet `check_value`
succeeds instead of raising the KeyError-class failure the claim requires,
and the key's value is used in the composite. -/
theorem check_value_unknown_key_spec_fails :
    (∀ p ∈ (⟨"fourc", [⟨"tth", -180, 180, 0⟩], [⟨"h", 0, 0, 0⟩], ["energy"]⟩ :
        DevModel).real_positioners, p.name ≠ "h") ∧
    check_value ⟨"fourc", [⟨"tth", -180, 180, 0⟩], [⟨"h", 0, 0, 0⟩], ["energy"]⟩
      [("h", 2)] = .ok [2] := by
  exact ⟨by decide, by decide⟩

/-- C5 (amended): every key of the partial mapping must resolve to an
attribute of the device, and a key with no attribute fails with a
KeyError-class error naming that axis; each key that names a real
positioner is validated against its own bounds individually (keys naming
other attributes, such as pseudo axes, are not individually validated);
pseudo axes not mentioned are filled from their current live value to form
the composite target that is then validated as a whole. -/
theorem check_value_partial_mapping (d : DevModel) (pos : List (String × ℚ)) :
    ((∀ p ∈ pos, hasattr d p.1 = true) → (∀ p ∈ pos, realOk d p.1 p.2 = true) →
      check_value d pos = .ok (fillPseudo d pos))
    ∧ ((∀ p ∈ pos, realOk d p.1 p.2 = true) → (∃ p ∈ pos, hasattr d p.1 = false) →
      ∃ a, hasattr d a = false ∧ (∃ t, (a, t) ∈ pos) ∧
        check_value d pos = .error (.keyError a))
    ∧ ((∀ p ∈ pos, hasattr d p.1 = true) → (∃ p ∈ pos, realOk d p.1 p.2 = false) →
      ∃ a t, (a, t) ∈ pos ∧ realOk d a t = false ∧
        check_value d pos = .error (.limitError a)) := by
  refine ⟨?_, ?_, ?_⟩
  · intro h1 h2
    unfold check_value
    rw [check_axes_all_pass d pos h1 h2]
  · intro h2 h
    obtain ⟨a, hf, ht, heq⟩ := check_axes_key_fail d pos h2 h
    refine ⟨a, hf, ht, ?_⟩
    unfold check_value
    rw [heq]
  · intro h1 h
    obtain ⟨a, t, hmem, hfail, heq⟩ := check_axes_limit_fail d pos h1 h
    refine ⟨a, t, hmem, hfail, ?_⟩
    unfold check_value
    rw [heq]

/-- C5 witness: a mapping naming only the real axis "tth" within bounds
passes and the composite is filled from the pseudo axes' current values;
a mapping with an unknown key fails with a KeyError naming it. -/
theorem check_value_partial_mapping_witness :
    check_value ⟨"fourc", [⟨"tth", -180, 180, 0⟩], [⟨"h", 0, 0, 1⟩], ["energy"]⟩
      [("tth", 30)] = .ok [1] ∧
    ∃ a, hasattr ⟨"fourc", [⟨"tth", -180, 180, 0⟩], [⟨"h", 0, 0, 1⟩], ["energy"]⟩ a = false ∧
      (∃ t, (a, t) ∈ [(("nosuch" : String), (5 : ℚ))]) ∧
      check_value ⟨"fourc", [⟨"tth", -180, 180, 0⟩], [⟨"h", 0, 0, 1⟩], ["energy"]⟩
        [("nosuch", 5)] = .error (.keyError a) := by
  constructor
  · have h := (check_value_partial_mapping
      ⟨"fourc", [⟨"tth", -180, 180, 0⟩], [⟨"h", 0, 0, 1⟩], ["energy"]⟩ [("tth", 30)]).1
      (by decide) (by decide)
    rw [h]
    decide
  · exact (check_value_partial_mapping
      ⟨"fourc", [⟨"tth", -180, 180, 0⟩], [⟨"h", 0, 0, 1⟩], ["energy"]⟩ [("nosuch", 5)]).2.1
      (by decide) ⟨("nosuch", 5), by simp, by decide⟩

/-- C6: `forward` searches from the current live position to the target
with an iteration cap of exactly 100; an empty solution set fails with the
no-solution error carrying the attempted target; a nonempty one is passed
unfiltered with the target to the per-instance decision function, whose
value is returned; the default decision function selects the first solution
in solver-returned order. -/
theorem forward_cap_and_no_solution (k : KinAdapter)
    (dec : List ℚ → List (List ℚ) → List ℚ) (p x : List ℚ) (xs : List (List ℚ)) :
    (k.search k.position p 100 = [] → forward k dec p = .error (.noSolution p))
    ∧ (k.search k.position p 100 ≠ [] →
        forward k dec p = .ok (dec p (k.search k.position p 100)))
    ∧ default_decision_function p (x :: xs) = x := by
  refine ⟨?_, ?_, rfl⟩
  · intro h
    unfold forward forward_iter
    rw [h]
  · intro h
    unfold forward forward_iter
    cases hs : k.search k.position p 100 with
    | nil => exact absurd hs h
    | cons a t => rfl

/-- C6 witness: a solver finding nothing yields the no-solution error; a
solver returning two solutions has the first selected by the default
decision function. -/
theorem forward_cap_and_no_solution_witness :
    forward ⟨[0], fun _ _ _ => []⟩ default_decision_function [1] =
      .error (.noSolution [1]) ∧
    forward ⟨[0], fun _ _ _ => [[2], [3]]⟩ default_decision_function [1] = .ok [2] := by
  constructor
  · exact (forward_cap_and_no_solution ⟨[0], fun _ _ _ => []⟩
      default_decision_function [1] [] []).1 rfl
  · exact (forward_cap_and_no_solution ⟨[0], fun _ _ _ => [[2], [3]]⟩
      default_decision_function [1] [] []).2.1 (by simp)

/-- C9: construction fails fast with a configuration error when a supplied
calculation instance is not an instance of `calc_class` or when the
calculation engine is not locked; a successful construction returns a
locked, type-matched calculation instance. -/
theorem init_requires_locked_typed (ci : Option CalcInst) (dm : Bool) :
    (∀ c, ci = some c →
      (c.is_instance_of_calc_class = false ∨ c.engine_locked = false) →
      ∃ m, diffractometer_init ci dm = .error (.configProblem m))
    ∧ (∀ r, diffractometer_init ci dm = .ok r →
      r.engine_locked = true ∧ r.is_instance_of_calc_class = true) := by
  constructor
  · rintro c rfl h
    by_cases hi : c.is_instance_of_calc_class = false
    · exact ⟨"Calculation instance must be derived from the class calc_class",
        by simp [diffractometer_init, hi]⟩
    · have hl : c.engine_locked = false := by
        rcases h with h | h
        · exact absurd h hi
        · exact h
      exact ⟨"Calculation engine must be locked",
        by simp [diffractometer_init, hi, hl]⟩
  · intro r h
    cases ci with
    | none =>
      cases hd : dm with
      | false =>
        rw [hd] at h
        simp [diffractometer_init] at h
      | true =>
        rw [hd] at h
        simp [diffractometer_init] at h
        rw [← h]
        exact ⟨rfl, rfl⟩
    | some c =>
      by_cases hi : c.is_instance_of_calc_class = false
      · simp [diffractometer_init, hi] at h
      · by_cases hl : c.engine_locked = false
        · simp [diffractometer_init, hi, hl] at h
        · simp [diffractometer_init, hi, hl] at h
          rw [← h]
          constructor
          · simpa using hl
          · simpa using hi

/-- C9 witness: a locked but type-mismatched instance is rejected; default
construction with a locking calc class succeeds with a locked, matched
instance. -/
theorem init_requires_locked_typed_witness :
    (∃ m, diffractometer_init (some ⟨true, false⟩) true = .error (.configProblem m)) ∧
    (diffractometer_init none true = .ok ⟨true, true⟩ ∧
      (⟨true, true⟩ : CalcInst).engine_locked = true ∧
      (⟨true, true⟩ : CalcInst).is_instance_of_calc_class = true) := by
  constructor
  · exact (init_requires_locked_typed (some ⟨true, false⟩) true).1 ⟨true, false⟩ rfl
      (Or.inl rfl)
  · refine ⟨rfl, ?_⟩
    exact (init_requires_locked_typed none true).2 ⟨true, true⟩ rfl

end HklDiffract
